import Mathlib

/-!
Formal model of the `solaris-energy-poc` agent-workflow pipeline.

The definitions below are a shallow embedding of the Python sources
`src/lambda/agent-workflow/handler.py`, `src/lambda/agent-workflow/llm_clients.py`
and `src/lambda/agent-workflow/opensearch_helper.py`.

Modelling conventions:
* Python dictionaries with optional keys become structures with `Option` fields
  (`none` = key absent).  `dict.get(k, d)` becomes `Option.getD`.
* Python floats become `ℚ`.  `round(x, 3)` becomes `rnd3` (round half up at the
  third decimal; the tie-breaking direction is irrelevant to every property
  proved here).
* Python truthiness of strings (`if s:`) is `s ≠ ""` on a present value.
* External collaborators (OpenSearch, Bedrock, Grok, the telemetry gateway and
  the guardrail service) are oracle parameters: an `Except String α` value is
  the outcome of the one call the code makes (`.error e` = the call raised
  exception `e`).
* Timestamps (`datetime.now`) are passed in as opaque string parameters.
-/

namespace SolarisAgent

/-- Lowercasing as used by `str.lower()` (ASCII-faithful, per code point). -/
def lowerStr (s : String) : String := ⟨s.data.map Char.toLower⟩

/-- Python slicing `s[:n]` over code points. -/
def strTake (s : String) (n : Nat) : String := ⟨s.data.take n⟩

/-- Python `a or b` for an optional string `a` and a string default `b`
(`None` and `""` are falsy). -/
def pyStrOr (a : Option String) (b : String) : String :=
  match a with
  | some s => if s = "" then b else s
  | none => b

/-- Python `a or b` where both operands are optional strings. -/
def pyOrOpt (a b : Option String) : Option String :=
  match a with
  | some s => if s = "" then b else some s
  | none => b

/-- Rendering of an optional string inside an f-string (`None` prints as such). -/
def pyShowOpt (o : Option String) : String :=
  match o with
  | some s => s
  | none => "None"

/-- Rendering of a rational inside an f-string.  The exact digits differ from
Python float formatting; only the presence of the message matters to the
properties proved below. -/
def ratStr (q : ℚ) : String := toString q.num ++ "/" ++ toString q.den

/-- Model of Python `round(x, 3)`: round to the nearest thousandth.
Implemented with `Int.floor` so that it is the standard round-half-up; Python
uses round-half-even, which differs only at exact half-thousandth ties and is
immaterial to every claim below. -/
def rnd3 (x : ℚ) : ℚ := ((⌊x * 1000 + 1 / 2⌋ : ℤ) : ℚ) / 1000

/-! Retrieval data model (handler.py, opensearch_helper.py). -/

/-- The `metadata` sub-dictionary of a retrieval hit. -/
structure DocMetadata where
  page : Option String
  section_path : Option String
  heading : Option String
  «section» : Option String
  chunk_index : Option Int
deriving DecidableEq

/-- A metadata dictionary with no keys (`doc.get("metadata", {})`). -/
def emptyMetadata : DocMetadata := ⟨none, none, none, none, none⟩

/-- A neighbor chunk attached by `fetch_neighbor_chunks` (an OpenSearch
`_source` document). -/
structure Neighbor where
  text : Option String
  metadata : DocMetadata
deriving DecidableEq

/-- A retrieved document as produced by `search_documents` and consumed by the
pipeline stages (a Python dict; absent keys are `none`). -/
structure Doc where
  content : Option String
  text : Option String
  source : Option String
  page : Option String
  turbine_model : Option String
  document_type : Option String
  score : Option ℚ
  metadata : DocMetadata
  neighbors : List Neighbor
deriving DecidableEq

/-- A citation payload as built by `normalize_citations` (handler.py:358-383). -/
structure Citation where
  source : Option String
  page : Option String
  relevance_score : ℚ
  excerpt : String
  «section» : Option String
deriving DecidableEq

/-- The raw score of a hit: `doc.get("score", 0.0)`. -/
def rawScore (d : Doc) : ℚ := d.score.getD 0

/-- The text of a hit: `doc.get("content") or doc.get("text") or ""`. -/
def docContentText (d : Doc) : String := pyStrOr d.content (pyStrOr d.text "")

/-- One citation entry of `normalize_citations`, given the effective divisor
`maxScore` (handler.py:371-382). -/
def normalizeOne (maxScore : ℚ) (doc : Doc) : Citation :=
  { source := doc.source
    page := doc.metadata.page
    relevance_score := rnd3 (min (max (rawScore doc / maxScore) 0) 1)
    excerpt := strTake (docContentText doc) 500
    «section» := pyOrOpt doc.metadata.section_path doc.metadata.heading }

/-- Python `max(doc.get("score", 0.0) for doc in documents)` for a non-empty
list (0 for the empty list, which the caller rules out). -/
def maxRawScore (documents : List Doc) : ℚ :=
  match documents with
  | [] => 0
  | d :: ds => (ds.map rawScore).foldl max (rawScore d)

/-- Citation normalization (handler.py:358-383): divide each raw score by the
maximum raw score (1.0 when that maximum is ≤ 0), clamp to [0,1], round to 3
decimals, truncate the excerpt to 500 characters. -/
def normalize_citations (documents : List Doc) : List Citation :=
  match documents with
  | [] => []
  | d :: ds =>
    let maxScore0 := (ds.map rawScore).foldl max (rawScore d)
    let maxScore := if maxScore0 ≤ 0 then 1 else maxScore0
    (d :: ds).map (normalizeOne maxScore)

/-- The effective divisor used by `normalize_citations` on a non-empty list. -/
def effectiveMaxScore (documents : List Doc) : ℚ :=
  if maxRawScore documents ≤ 0 then 1 else maxRawScore documents

/-- Mean citation relevance, `sum(c["relevance_score"] ...) / len(...)`. -/
def meanRel (cs : List Citation) : ℚ :=
  (cs.map Citation.relevance_score).sum / cs.length

/-- Confidence blending (handler.py:386-399).  Telemetry data points are
modelled opaquely as serialized readings. -/
def combine_confidence (document_citations : List Citation)
    (data_points : List String) : ℚ :=
  let base_confidence :=
    if document_citations.isEmpty then (0.4 : ℚ)
    else 0.55 + meanRel document_citations * 0.35
  let boosted :=
    if data_points.isEmpty then base_confidence else base_confidence + 0.05
  min 0.98 (rnd3 boosted)

/-! Hierarchical context assembly (handler.py:321-355). -/

/-- One `[Neighbor]` line of the context string. -/
def neighborLine (n : Neighbor) : String :=
  let subsection :=
    pyOrOpt n.metadata.section_path (pyOrOpt n.metadata.heading n.metadata.«section»)
  match subsection with
  | some s =>
    if s = "" then "  [Neighbor] " ++ n.text.getD ""
    else "  [Neighbor] " ++ s ++ ": " ++ n.text.getD ""
  | none => "  [Neighbor] " ++ n.text.getD ""

/-- The context lines contributed by one document (1-based index `idx`). -/
def docContextParts (idx : Nat) (doc : Doc) : List String :=
  let header :=
    pyStrOr doc.metadata.section_path
      (pyStrOr doc.metadata.heading (pyStrOr doc.metadata.«section» "Unknown Section"))
  let source := doc.source.getD "Unknown Source"
  let headerLine :=
    "[Doc " ++ toString idx ++ "] Source: " ++ source ++
      (match doc.metadata.page with
       | some p => " (page " ++ p ++ ")"
       | none => "") ++
      " | Section: " ++ header
  [headerLine, docContentText doc] ++ doc.neighbors.map neighborLine ++ [""]

/-- Context assembly: header plus content plus neighbor excerpts per hit,
joined by newlines and stripped; a fixed sentinel when no hits exist. -/
def build_hierarchical_context (documents : List Doc) : String :=
  match documents with
  | [] => "No relevant documentation found in the knowledge base."
  | _ =>
    (String.intercalate "\n"
      (documents.mapIdx (fun i doc => docContextParts (i + 1) doc)).flatten).trim

/-! Turbine model detection (handler.py:174-191). -/

/-- The alias table, in declaration order. -/
def TURBINE_ALIASES : List (String × String) :=
  [("smt60", "SMT60"), ("taurus60", "SMT60"), ("taurus-60", "SMT60"),
   ("smt130", "SMT130"), ("titan130", "SMT130"), ("titan-130", "SMT130"),
   ("tm2500", "TM2500"), ("lm2500", "TM2500")]

/-- Case-insensitive substring test `alias in query.lower()`. -/
def aliasMatches (query aliasText : String) : Bool :=
  decide (aliasText.data <:+: (lowerStr query).data)

/-- Return the canonical model of the first alias (in declaration order) that
occurs in the lowercased query, else `none`. -/
def detect_turbine_model (query : String) : Option String :=
  (TURBINE_ALIASES.find? (fun p => aliasMatches query p.1)).map Prod.snd

/-! Query transformation (handler.py:194-231). -/

/-- Language heuristic: fraction of non-ASCII code points above 0.2. -/
def detect_language (text : String) : String :=
  let nonAscii := (text.data.filter (fun c => 127 < c.toNat)).length
  if (nonAscii : ℚ) / (max text.data.length 1 : ℚ) > 0.2 then "unknown-non-ascii"
  else "en"

/-- A prior conversation turn (a Python message dict; absent keys are `none`). -/
structure Message where
  role : Option String
  content : Option String
  timestamp : Option String
deriving DecidableEq

/-- The enriched query payload of `enrich_query`. -/
structure EnrichedQuery where
  original_query : String
  turbine_model : Option String
  detected_language : String
  recent_user_context : List String
  query_with_model_hint : String
deriving DecidableEq

/-- Query enrichment: last 3 turns filtered to user turns with non-empty
content, plus a parenthetical model hint when a model was detected. -/
def enrich_query (query : String) (turbine_model : Option String)
    (messages : List Message) : EnrichedQuery :=
  let recent_context :=
    ((messages.drop (messages.length - 3)).filter
      (fun m => m.role == some "user")).map (fun m => m.content.getD "")
  { original_query := query
    turbine_model := turbine_model
    detected_language := detect_language query
    recent_user_context := recent_context.filter (fun c => !(c == ""))
    query_with_model_hint :=
      match turbine_model with
      | some tm =>
        if tm = "" then query else query ++ " (turbine model: " ++ tm ++ ")"
      | none => query }

/-! Conversation history formatting (llm_clients.py:22-56). -/

/-- A normalized role/text pair produced by `format_conversation_history`. -/
structure RoleText where
  role : String
  text : String
deriving DecidableEq

/-- Role normalization `_normalize_role` (llm_clients.py:25-30):
`(role or "user").lower()`, anything outside tags user and assistant becomes
assistant. -/
def normalize_role (role : String) : String :=
  let lowered := lowerStr (if role = "" then "user" else role)
  if lowered = "user" ∨ lowered = "assistant" then lowered else "assistant"

/-- The role/text entry produced for one message dict. -/
def historyEntryOfMessage (m : Message) : RoleText :=
  { role := normalize_role (m.role.getD "user"), text := m.content.getD "" }

/-- History normalization (llm_clients.py:41-56): every message is mapped, in
order, to a role/text entry. -/
def format_conversation_history (messages : List Message) : List RoleText :=
  messages.map historyEntryOfMessage

/-! Model configuration (handler.py:79-139, 239-278). -/

/-- One configured reasoning backend. -/
structure ModelEntry where
  display_name : Option String
  type : Option String
  model_id : Option String
  max_tokens : Option ℤ
  temperature : Option ℚ
  requires : List String
deriving DecidableEq

/-- The model-selection configuration (an association list preserves the
declaration order of the Python dict). -/
structure ModelConfig where
  default_model : Option String
  fallback_model : Option String
  models : List (String × ModelEntry)
deriving DecidableEq

/-- The built-in configuration `DEFAULT_MODEL_CONFIG` (handler.py:79-107). -/
def DEFAULT_MODEL_CONFIG : ModelConfig :=
  { default_model := some "nova_pro"
    fallback_model := some "nova_pro"
    models :=
      [("nova_pro",
        { display_name := some "Amazon Nova Pro", type := some "bedrock",
          model_id := some "amazon.nova-pro-v1:0", max_tokens := some 2048,
          temperature := some 0.4, requires := [] }),
       ("claude_4_5",
        { display_name := some "Anthropic Claude 4.5 Sonnet", type := some "bedrock",
          model_id := some "anthropic.claude-4.5-sonnet-20250205-v1:0",
          max_tokens := some 2048, temperature := some 0.3, requires := [] }),
       ("grok",
        { display_name := some "Grok Operator Assistant", type := some "grok",
          model_id := none, max_tokens := none, temperature := none,
          requires := ["GROK_API_URL", "GROK_API_KEY"] })] }

/-- Key membership in the models dict. -/
def keyMem (models : List (String × ModelEntry)) (k : String) : Bool :=
  (models.find? (fun p => p.1 == k)).isSome

/-- Lookup `get_model_entry` (handler.py:239-242); a falsy key yields `none`. -/
def get_model_entry (cfg : ModelConfig) (model_key : Option String) :
    Option ModelEntry :=
  match model_key with
  | none => none
  | some k =>
    if k = "" then none else (cfg.models.find? (fun p => p.1 == k)).map Prod.snd

/-- Primary key resolution (handler.py:245-267): environment override when it
names a configured model, else the configured default when configured, else
the first configured key, else the built-in baseline. -/
def resolve_model_key (cfg : ModelConfig) (override : Option String) : String :=
  let fromOverride :=
    match override with
    | some o => if o ≠ "" ∧ keyMem cfg.models o = true then some o else none
    | none => none
  match fromOverride with
  | some o => o
  | none =>
    match cfg.default_model with
    | some d =>
      if keyMem cfg.models d = true then d
      else
        match cfg.models with
        | [] => "nova_pro"
        | (k, _) :: _ => k
    | none =>
      match cfg.models with
      | [] => "nova_pro"
      | (k, _) :: _ => k

/-- Fallback key resolution (handler.py:270-278): the configured fallback when
distinct from the primary and configured; else the baseline key; else the
configured default when distinct; else nothing. -/
def resolve_fallback_model_key (cfg : ModelConfig) (primary_key : String) :
    Option String :=
  let fromConfigured :=
    match cfg.fallback_model with
    | some fk =>
      if fk ≠ "" ∧ fk ≠ primary_key ∧ (get_model_entry cfg (some fk)).isSome = true
      then some fk else none
    | none => none
  match fromConfigured with
  | some fk => some fk
  | none =>
    if primary_key ≠ "nova_pro" ∧ (get_model_entry cfg (some "nova_pro")).isSome = true
    then some "nova_pro"
    else
      match cfg.default_model with
      | some d =>
        if primary_key ≠ d ∧ (get_model_entry cfg (some d)).isSome = true
        then some d else none
      | none => none

/-! Agent state (handler.py:149-167) and the LangGraph merge. -/

/-- Query metadata produced by the query transformer. -/
structure QueryMetadata where
  intent : String
  language : String
  turbine_model : Option String
  timestamp : String
deriving DecidableEq

/-- Response metadata produced by the reasoning engine. -/
structure ResponseMetadata where
  generated_at : String
  model_key : String
  model_display : Option String
  grok_invoked : Bool
deriving DecidableEq

/-- One entry of the guardrail evaluation `outputs` array. -/
structure GuardrailOutputEntry where
  complianceStatus : Option String
deriving DecidableEq

/-- The guardrail evaluation payload returned by `apply_bedrock_guardrail`
(`outputs` models `result.get("outputs", [])`, empty unless applied). -/
structure GuardrailResult where
  status : String
  details : Option String
  outputs : List GuardrailOutputEntry
deriving DecidableEq

/-- The shared `AgentState` dictionary (`total=False`: every key may be
absent, hence every field is optional; `turbine_model` may be present with
value null, hence the nested option). -/
structure AgentState where
  session_id : Option String
  query : Option String
  transformed_query : Option String
  query_metadata : Option QueryMetadata
  messages : Option (List Message)
  turbine_model : Option (Option String)
  data_points : Option (List String)
  data_fetch_status : Option String
  retrieved_documents : Option (List Doc)
  hierarchical_context : Option String
  citations : Option (List Citation)
  llm_response : Option String
  response_metadata : Option ResponseMetadata
  confidence_score : Option ℚ
  guardrail_result : Option GuardrailResult
  errors : Option (List String)
deriving DecidableEq

/-- The partial update a stage starts from: no keys set. -/
def blankUpdate : AgentState :=
  ⟨none, none, none, none, none, none, none, none,
   none, none, none, none, none, none, none, none⟩

/-- Per-field merge: a key present in the update overwrites, an absent key
keeps the previous value. -/
def updField {α : Type} (upd base : Option α) : Option α :=
  match upd with
  | some v => some v
  | none => base

/-- The LangGraph state merge: the partial update returned by a stage is
merged key-by-key into the previous state. -/
def mergeState (base upd : AgentState) : AgentState :=
  { session_id := updField upd.session_id base.session_id
    query := updField upd.query base.query
    transformed_query := updField upd.transformed_query base.transformed_query
    query_metadata := updField upd.query_metadata base.query_metadata
    messages := updField upd.messages base.messages
    turbine_model := updField upd.turbine_model base.turbine_model
    data_points := updField upd.data_points base.data_points
    data_fetch_status := updField upd.data_fetch_status base.data_fetch_status
    retrieved_documents := updField upd.retrieved_documents base.retrieved_documents
    hierarchical_context := updField upd.hierarchical_context base.hierarchical_context
    citations := updField upd.citations base.citations
    llm_response := updField upd.llm_response base.llm_response
    response_metadata := updField upd.response_metadata base.response_metadata
    confidence_score := updField upd.confidence_score base.confidence_score
    guardrail_result := updField upd.guardrail_result base.guardrail_result
    errors := updField upd.errors base.errors }

/-- The list `ensure_errors` hands to a stage: `state.get("errors", [])`. -/
def ensure_errors (state : AgentState) : List String := state.errors.getD []

/-! Pipeline stages (handler.py:512-742).  Each returns the partial update the
Python node returns. -/

/-- Stage 1, `query_transformer` (handler.py:512-531).  `now` is the UTC
timestamp. -/
def query_transformer (now : String) (state : AgentState) : AgentState :=
  let query := state.query.getD ""
  let messages := state.messages.getD []
  let turbine_model := detect_turbine_model query
  let enriched := enrich_query query turbine_model messages
  { blankUpdate with
    transformed_query := some enriched.query_with_model_hint
    query_metadata := some
      { intent := "diagnostic_query", language := enriched.detected_language,
        turbine_model := turbine_model, timestamp := now }
    turbine_model := some turbine_model }

/-- Stage 2, `data_fetcher` (handler.py:534-574).  `enabled` is
`DATA_FETCH_ENABLED and AGENTCORE_GATEWAY_URL`; `fetchOutcome` is the gateway
call. -/
def data_fetcher (enabled : Bool) (fetchOutcome : Except String (List String))
    (state : AgentState) : AgentState :=
  let errors := ensure_errors state
  if enabled = false then
    { blankUpdate with
      data_points := some []
      data_fetch_status := some "disabled"
      errors := some errors }
  else
    match fetchOutcome with
    | .ok data =>
      { blankUpdate with
        data_points := some data
        data_fetch_status := some "success"
        errors := some errors }
    | .error exc =>
      { blankUpdate with
        data_points := some []
        data_fetch_status := some "error"
        errors := some (errors ++ ["DataFetcher: " ++ exc]) }

/-- An OpenSearch hit (`_score` plus the `_source` fields selected by
`search_documents`). -/
structure SearchHit where
  score : Option ℚ
  text : Option String
  source : Option String
  metadata : Option DocMetadata
  turbine_model : Option String
  document_type : Option String
deriving DecidableEq

/-- Result formatting inside `search_documents`
(opensearch_helper.py:182-193). -/
def formatHit (h : SearchHit) : Doc :=
  { content := some (h.text.getD "")
    text := none
    source := some (h.source.getD "Unknown")
    page := (h.metadata.getD emptyMetadata).page
    turbine_model := h.turbine_model
    document_type := h.document_type
    score := some (h.score.getD 0)
    metadata := h.metadata.getD emptyMetadata
    neighbors := [] }

/-- Hybrid search (opensearch_helper.py:98-203).  `searchCall` is the outcome
of the embedding plus `client.search` round trip; every exception — timeout or
otherwise — is caught inside the helper and yields an empty hit list. -/
def search_documents (searchCall : Except String (List SearchHit)) : List Doc :=
  match searchCall with
  | .error _ => []
  | .ok hits => hits.map formatHit

/-- Neighbor stitching (handler.py:281-318) for the default window 1: without
a source or chunk index no ids are built; an `mget` failure degrades to no
neighbors.  `mget` is modelled as the list of found neighbor sources. -/
def fetch_neighbor_chunks (source : Option String) (chunk_index : Option Int)
    (mget : Except String (List Neighbor)) : List Neighbor :=
  match source, chunk_index with
  | some _, some _ =>
    match mget with
    | .ok found => found
    | .error _ => []
  | _, _ => []

/-- Stage 3, `knowledge_retriever` (handler.py:577-631).  `configured` is the
import/endpoint guard; `outerExc` is an exception raised inside the stage body
outside `search_documents` (client construction); `neighborFetches i` is the
`mget` outcome for the i-th hit. -/
def knowledge_retriever (configured : Bool) (outerExc : Option String)
    (searchCall : Except String (List SearchHit))
    (neighborFetches : Nat → Except String (List Neighbor))
    (state : AgentState) : AgentState :=
  let errors := ensure_errors state
  if configured = false then
    { blankUpdate with
      retrieved_documents := some []
      hierarchical_context := some "Knowledge retrieval is currently unavailable."
      citations := some []
      errors := some (errors ++ ["KnowledgeRetriever: OpenSearch not configured"]) }
  else
    match outerExc with
    | some exc =>
      { blankUpdate with
        retrieved_documents := some []
        hierarchical_context := some "Knowledge retrieval failed."
        citations := some []
        errors := some (errors ++ ["KnowledgeRetriever: " ++ exc]) }
    | none =>
      let documents :=
        (search_documents searchCall).mapIdx (fun i d =>
          { d with neighbors := fetch_neighbor_chunks d.source d.metadata.chunk_index (neighborFetches i) })
      { blankUpdate with
        retrieved_documents := some documents
        hierarchical_context := some (build_hierarchical_context documents)
        citations := some (normalize_citations documents)
        errors := some errors }

/-- Python string truthiness of an optional response text. -/
def truthyStr (s : Option String) : Bool :=
  match s with
  | some t => !(t == "")
  | none => false

/-- Bedrock invocation wrapper `run_bedrock_model` (handler.py:460-505);
`invokeOutcome` is the `invoke_llm` call (`.error` = it raised).  Returns the
response, the error list, and whether the backend was actually invoked.  The
helper-import guard is taken as satisfied (the runtime package ships the
helpers). -/
def run_bedrock_model (model_entry : Option ModelEntry)
    (invokeOutcome : Except String String) (errors : List String) :
    Option String × List String × Bool :=
  match model_entry with
  | none => (none, errors ++ ["Bedrock model entry unavailable for invocation."], false)
  | some entry =>
    match entry.model_id with
    | none => (none, errors ++ ["Bedrock model configuration missing model_id."], false)
    | some mid =>
      if mid = "" then
        (none, errors ++ ["Bedrock model configuration missing model_id."], false)
      else
        match invokeOutcome with
        | .ok text => (some text, errors, true)
        | .error exc =>
          (none, errors ++ ["Bedrock invocation failed for model " ++ mid ++ ": " ++ exc],
           true)

/-- The intermediate selection outcome of the reasoning engine. -/
structure EngineStep where
  primaryResponse : Option String
  response : Option String
  fallbackKey : Option String
  fallbackRuns : Nat
  usedKey : String
  errors : List String
deriving DecidableEq

/-- The instrumented result of one reasoning-engine run. -/
structure ReasoningTrace where
  primaryKey : String
  primaryIsGrok : Bool
  primaryResponse : Option String
  fallbackKey : Option String
  fallbackRuns : Nat
  usedModelKey : String
  responseText : String
  grokInvoked : Bool
  errors : List String
deriving DecidableEq

/-- Stage 4 core, `reasoning_engine` (handler.py:634-695).  `override` is the
environment model-key override, `grokResult` the outcome of `call_grok_api`
(`none` covers both a missing configuration and a failed call), and
`primaryInvoke`/`fallbackInvoke` the Bedrock invocations.  `fallbackRuns`
counts how many times the resolved fallback entry is handed to
`run_bedrock_model`. -/
def reasoning_engine_core (cfg : ModelConfig) (override grokResult : Option String)
    (primaryInvoke fallbackInvoke : Except String String)
    (state : AgentState) : ReasoningTrace :=
  let errors0 := ensure_errors state
  let k0 := resolve_model_key cfg override
  let afterMissing :=
    match get_model_entry cfg (some k0) with
    | none =>
      ("nova_pro", get_model_entry cfg (some "nova_pro"),
       errors0 ++ ["Model configuration missing entry for key " ++ k0 ++
         ". Falling back to Nova Pro."])
    | some e => (k0, some e, errors0)
  let primaryKey := afterMissing.1
  let primaryEntry := afterMissing.2.1
  let errors1 := afterMissing.2.2
  let isGrokPrimary : Bool :=
    match primaryEntry with
    | some e => e.type == some "grok"
    | none => false
  let step : EngineStep :=
    if isGrokPrimary then
      if truthyStr grokResult then
        ⟨grokResult, grokResult, none, 0, primaryKey, errors1⟩
      else
        match resolve_fallback_model_key cfg primaryKey with
        | some fk =>
          let rb := run_bedrock_model (get_model_entry cfg (some fk))
            fallbackInvoke errors1
          ⟨grokResult, rb.1, some fk, 1, fk, rb.2.1⟩
        | none =>
          ⟨grokResult, grokResult, none, 0, primaryKey,
           errors1 ++ ["Grok selected but no fallback Bedrock model configured."]⟩
    else
      let rb := run_bedrock_model primaryEntry primaryInvoke errors1
      match rb.1 with
      | some t => ⟨some t, some t, none, 0, primaryKey, rb.2.1⟩
      | none =>
        match resolve_fallback_model_key cfg primaryKey with
        | some fk =>
          let rb2 := run_bedrock_model (get_model_entry cfg (some fk))
            fallbackInvoke rb.2.1
          ⟨none, rb2.1, some fk, 1, fk, rb2.2.1⟩
        | none => ⟨none, none, none, 0, primaryKey, rb.2.1⟩
  let finalText :=
    if truthyStr step.response then step.response.getD ""
    else "Unable to generate a response at this time."
  let errorsF :=
    if truthyStr step.response then step.errors
    else step.errors ++
      ["ReasoningEngine unable to produce a response from configured models."]
  { primaryKey := primaryKey, primaryIsGrok := isGrokPrimary,
    primaryResponse := step.primaryResponse, fallbackKey := step.fallbackKey,
    fallbackRuns := step.fallbackRuns, usedModelKey := step.usedKey,
    responseText := finalText, grokInvoked := isGrokPrimary, errors := errorsF }

/-- Stage 4 as a partial state update (handler.py:684-695). -/
def reasoning_engine (cfg : ModelConfig) (override grokResult : Option String)
    (primaryInvoke fallbackInvoke : Except String String) (now : String)
    (state : AgentState) : AgentState :=
  let t := reasoning_engine_core cfg override grokResult primaryInvoke
    fallbackInvoke state
  { blankUpdate with
    llm_response := some t.responseText
    response_metadata := some
      { generated_at := now, model_key := t.usedModelKey,
        model_display := (get_model_entry cfg (some t.usedModelKey)).bind
          ModelEntry.display_name,
        grok_invoked := t.grokInvoked }
    errors := some t.errors }

/-- The conversation history `run_bedrock_model` hands to `invoke_llm`: the
full `state.get("messages", [])`, normalized by `format_conversation_history`
(handler.py:498, llm_clients.py:84). -/
def bedrock_conversation_history (state : AgentState) : List RoleText :=
  format_conversation_history (state.messages.getD [])

/-- Modelled from the spec (section 4.5): the history the spec describes, only
the last 5 prior turns (`messages[-5:]`).  Stated for comparison against the
code, which slices nothing. -/
def spec_last_five_history (messages : List Message) : List RoleText :=
  format_conversation_history (messages.drop (messages.length - 5))

/-! Response validation (handler.py:428-453, 698-742). -/

/-- The fixed safe-refusal message (handler.py:722-725). -/
def safeRefusalMessage : String :=
  "I am unable to provide that information safely. " ++
  "Please consult the turbine supervisor or engineering support."

/-- The fixed low-confidence warning suffix (handler.py:732-735). -/
def lowConfidenceSuffix : String :=
  "\n\nConfidence in the retrieved information is below the " ++
  "required threshold. Please verify with a senior operator."

/-- The threshold-violation log entry (handler.py:728-731). -/
def confidenceThresholdMessage (score threshold : ℚ) : String :=
  "Confidence threshold not met (score=" ++ ratStr score ++
  ", threshold=" ++ ratStr threshold ++ ")"

/-- Guardrail application (handler.py:428-453): skipped without a configured
guardrail id; otherwise the evaluation call either returns the outputs or
raises. -/
def apply_bedrock_guardrail (guardrailConfigured : Bool)
    (evalOutcome : Except String (List GuardrailOutputEntry)) : GuardrailResult :=
  if guardrailConfigured = false then
    { status := "skipped", details := some "Guardrail ID not configured", outputs := [] }
  else
    match evalOutcome with
    | .ok outs => { status := "applied", details := none, outputs := outs }
    | .error exc => { status := "error", details := some exc, outputs := [] }

/-- Stage 5, `response_validator` (handler.py:698-742). -/
def response_validator (guardrailConfigured : Bool)
    (evalOutcome : Except String (List GuardrailOutputEntry)) (minConfidence : ℚ)
    (state : AgentState) : AgentState :=
  let errors0 := ensure_errors state
  let citations := state.citations.getD []
  let data_points := state.data_points.getD []
  let draft := state.llm_response.getD ""
  let confidence_score := combine_confidence citations data_points
  let guardrail_result := apply_bedrock_guardrail guardrailConfigured evalOutcome
  let errors1 :=
    if guardrail_result.status = "error" then
      errors0 ++ ["Guardrail error: " ++ pyShowOpt guardrail_result.details]
    else errors0
  let afterGuardrail : String × List String :=
    if guardrail_result.status = "applied" then
      match guardrail_result.outputs with
      | [] => (draft, errors1)
      | entry :: _ =>
        if entry.complianceStatus ≠ some "COMPLIANT" then
          (safeRefusalMessage,
           errors1 ++ ["Guardrail non-compliance: " ++ pyShowOpt entry.complianceStatus])
        else (draft, errors1)
    else (draft, errors1)
  let finalPair : String × List String :=
    if confidence_score < minConfidence then
      (afterGuardrail.1 ++ lowConfidenceSuffix,
       afterGuardrail.2 ++ [confidenceThresholdMessage confidence_score minConfidence])
    else afterGuardrail
  { blankUpdate with
    llm_response := some finalPair.1
    confidence_score := some confidence_score
    guardrail_result := some guardrail_result
    errors := some finalPair.2 }

/-! Lambda entry point (handler.py:770-840), direct-payload path.  The
pipeline invocation itself is abstracted: the result records whether the
request was rejected before the pipeline ran, or which query the pipeline was
started with. -/

/-- The incoming request payload (absent keys are `none`). -/
structure RequestPayload where
  session_id : Option String
  query : Option String
  inputText : Option String
  messages : Option (List Message)
deriving DecidableEq

/-- The handler outcome: an early rejection, or a pipeline run with the given
initial query. -/
inductive HandlerResult where
  | rejected (statusCode : Nat) (error : String)
  | ran (statusCode : Nat) (initialQuery : String) (sessionId : String)
      (messages : List Message)
deriving DecidableEq

/-- The `inputText` aliasing plus validation of `lambda_handler`
(handler.py:793-812); `genSession` is the generated session id used when the
payload supplies none. -/
def lambda_handler (genSession : String) (payload : RequestPayload) :
    HandlerResult :=
  let payload1 :=
    if payload.query = none ∧ payload.inputText ≠ none then
      { payload with query := payload.inputText }
    else payload
  let session_id :=
    match payload1.session_id with
    | some s => if s = "" then genSession else s
    | none => genSession
  match payload1.query with
  | none => .rejected 400 "Query is required"
  | some q =>
    if q = "" then .rejected 400 "Query is required"
    else .ran 200 q session_id (payload1.messages.getD [])

/-! State-preservation vocabulary for the stage invariants. -/

/-- The previously recorded error entries survive as a prefix. -/
def errorsExtended (before after : AgentState) : Prop :=
  ∃ extra, ensure_errors after = ensure_errors before ++ extra

/-- Every field set before is still set after. -/
def fieldsKept (a b : AgentState) : Prop :=
  (a.session_id.isSome = true → b.session_id.isSome = true) ∧
  (a.query.isSome = true → b.query.isSome = true) ∧
  (a.transformed_query.isSome = true → b.transformed_query.isSome = true) ∧
  (a.query_metadata.isSome = true → b.query_metadata.isSome = true) ∧
  (a.messages.isSome = true → b.messages.isSome = true) ∧
  (a.turbine_model.isSome = true → b.turbine_model.isSome = true) ∧
  (a.data_points.isSome = true → b.data_points.isSome = true) ∧
  (a.data_fetch_status.isSome = true → b.data_fetch_status.isSome = true) ∧
  (a.retrieved_documents.isSome = true → b.retrieved_documents.isSome = true) ∧
  (a.hierarchical_context.isSome = true → b.hierarchical_context.isSome = true) ∧
  (a.citations.isSome = true → b.citations.isSome = true) ∧
  (a.llm_response.isSome = true → b.llm_response.isSome = true) ∧
  (a.response_metadata.isSome = true → b.response_metadata.isSome = true) ∧
  (a.confidence_score.isSome = true → b.confidence_score.isSome = true) ∧
  (a.guardrail_result.isSome = true → b.guardrail_result.isSome = true) ∧
  (a.errors.isSome = true → b.errors.isSome = true)

/-- A stage update is non-destructive for a given input state. -/
def stagePreserves (state upd : AgentState) : Prop :=
  errorsExtended state (mergeState state upd) ∧
  fieldsKept state (mergeState state upd)

/-! Concrete fixtures used by witnesses and counterexamples. -/

/-- A retrieval hit with raw score 2. -/
def exDocA : Doc :=
  { content := some "Oil pressure procedure", text := none,
    source := some "manual.pdf", page := some "12", turbine_model := some "SMT60",
    document_type := some "manual", score := some 2,
    metadata := { emptyMetadata with page := some "12", chunk_index := some 4 },
    neighbors := [] }

/-- A retrieval hit with raw score 4 (the maximum). -/
def exDocB : Doc :=
  { content := some "Lube oil specification", text := none,
    source := some "spec.pdf", page := none, turbine_model := some "SMT60",
    document_type := some "manual", score := some 4,
    metadata := emptyMetadata, neighbors := [] }

/-- A six-turn conversation, one turn with an out-of-range role. -/
def exMessages : List Message :=
  [⟨some "user", some "m1", none⟩, ⟨some "assistant", some "m2", none⟩,
   ⟨some "user", some "m3", none⟩, ⟨some "system", some "m4", none⟩,
   ⟨some "user", some "m5", none⟩, ⟨some "assistant", some "m6", none⟩]

/-- A pipeline state carrying the six-turn conversation. -/
def exState6 : AgentState :=
  { blankUpdate with
    query := some "low oil pressure"
    messages := some exMessages
    errors := some [] }

/-- A minimal state entering the reasoning engine. -/
def exStateR : AgentState :=
  { blankUpdate with
    query := some "low oil pressure"
    messages := some []
    errors := some [] }

/-- A minimal state entering the knowledge retriever. -/
def exState4 : AgentState :=
  { blankUpdate with
    query := some "low oil pressure"
    transformed_query := some "low oil pressure (turbine model: SMT60)"
    errors := some [] }

/-- A citation with a low relevance score. -/
def exCitLow : Citation := ⟨none, none, 0.2, "", none⟩

/-- A citation with a high relevance score. -/
def exCitHigh : Citation := ⟨none, none, 0.8, "", none⟩

/-- A request payload carrying only inputText. -/
def exPayload : RequestPayload := ⟨none, none, some "how to start SMT60", none⟩

/-- A guardrail outputs entry with a blocking verdict. -/
def exBlockedEntry : GuardrailOutputEntry := ⟨some "BLOCKED"⟩

/-- A state entering the response validator with one citation and a draft. -/
def exStateV : AgentState :=
  { blankUpdate with
    query := some "low oil pressure"
    llm_response := some "Here is how to bypass the interlock."
    citations := some [⟨some "manual.pdf", some "12", 1, "Oil pressure procedure", none⟩]
    data_points := some []
    errors := some [] }

/-! Numeric helper lemmas. -/

/-- Rounding to the nearest thousandth is monotone. -/
theorem rnd3_mono {x y : ℚ} (h : x ≤ y) : rnd3 x ≤ rnd3 y := by
  unfold rnd3
  have hf : (⌊x * 1000 + 1 / 2⌋ : ℤ) ≤ ⌊y * 1000 + 1 / 2⌋ :=
    Int.floor_le_floor (by linarith)
  have hq : ((⌊x * 1000 + 1 / 2⌋ : ℤ) : ℚ) ≤ ((⌊y * 1000 + 1 / 2⌋ : ℤ) : ℚ) := by
    exact_mod_cast hf
  linarith

/-- A rational that is an exact multiple of one thousandth rounds to itself. -/
theorem rnd3_eq_self {x : ℚ} (z : ℤ) (hz : x * 1000 = (z : ℚ)) : rnd3 x = x := by
  unfold rnd3
  have hfloor : ⌊x * 1000 + 1 / 2⌋ = z := by
    rw [hz]
    refine Int.floor_eq_iff.mpr ⟨by linarith, by linarith⟩
  rw [hfloor]
  have hx : x = (z : ℚ) / 1000 := by field_simp at hz ⊢; linarith
  rw [hx]

/-- Python `max` folding: the seed is a lower bound. -/
theorem le_foldl_max (l : List ℚ) (init : ℚ) : init ≤ l.foldl max init := by
  induction l generalizing init with
  | nil => exact le_refl init
  | cons a t ih => exact le_trans (le_max_left init a) (ih (max init a))

/-- Python `max` folding: every element is a lower bound of the result. -/
theorem mem_le_foldl_max {x : ℚ} {l : List ℚ} (init : ℚ) (hx : x ∈ l) :
    x ≤ l.foldl max init := by
  induction l generalizing init with
  | nil => cases hx
  | cons a t ih =>
    rcases List.mem_cons.mp hx with rfl | hmem
    · exact le_trans (le_max_right init x) (le_foldl_max t (max init x))
    · exact ih (max init a) hmem

/-- Python `max` folding: the result is the seed or one of the elements. -/
theorem foldl_max_cases (l : List ℚ) (init : ℚ) :
    l.foldl max init = init ∨ l.foldl max init ∈ l := by
  induction l generalizing init with
  | nil => exact Or.inl rfl
  | cons a t ih =>
    rcases ih (max init a) with heq | hmem
    · rcases max_choice init a with hm | hm
      · exact Or.inl (by rw [List.foldl_cons, heq, hm])
      · exact Or.inr (by rw [List.foldl_cons, heq, hm]; exact List.mem_cons_self a t)
    · exact Or.inr (List.mem_cons_of_mem a hmem)

/-- Zipping a list with its image: second components are the images of the
first. -/
theorem zip_map_snd {α β : Type} (f : α → β) :
    ∀ (l : List α), ∀ p ∈ l.zip (l.map f), p.2 = f p.1 := by
  intro l
  induction l with
  | nil => intro p hp; cases hp
  | cons a t ih =>
    intro p hp
    rcases List.mem_cons.mp hp with rfl | hmem
    · rfl
    · exact ih p hmem

/-- Zipping a list with its image: every element appears paired with its
image. -/
theorem mem_zip_map {α β : Type} (f : α → β) :
    ∀ (l : List α) (d : α), d ∈ l → (d, f d) ∈ l.zip (l.map f) := by
  intro l
  induction l with
  | nil => intro d hd; cases hd
  | cons a t ih =>
    intro d hd
    rcases List.mem_cons.mp hd with rfl | hmem
    · exact List.mem_cons_self _ _
    · exact List.mem_cons_of_mem _ (ih d hmem)

/-- Citation normalization as a pointwise map with the effective divisor. -/
theorem normalize_citations_eq (docs : List Doc) (hne : docs ≠ []) :
    normalize_citations docs = docs.map (normalizeOne (effectiveMaxScore docs)) := by
  cases docs with
  | nil => exact absurd rfl hne
  | cons d ds => simp [normalize_citations, effectiveMaxScore, maxRawScore]

/-- C3: on a non-empty document list, normalization yields one citation per
document; every relevance score is obtained by dividing the raw score by the
maximum raw score (divisor 1.0 when that maximum is ≤ 0), clamping to [0,1]
and rounding to three decimals, hence lies in [0,1]; and when all raw scores
are positive, a document attaining the maximum raw score exists, and every
document attaining it gets relevance exactly 1. -/
theorem normalize_citations_spec (docs : List Doc) (hne : docs ≠ []) :
    (normalize_citations docs).length = docs.length ∧
    (∀ c ∈ normalize_citations docs, 0 ≤ c.relevance_score ∧ c.relevance_score ≤ 1) ∧
    ((∀ d ∈ docs, 0 < rawScore d) →
      (∀ p ∈ docs.zip (normalize_citations docs),
        rawScore p.1 = maxRawScore docs → p.2.relevance_score = 1) ∧
      ∃ p ∈ docs.zip (normalize_citations docs),
        rawScore p.1 = maxRawScore docs ∧ p.2.relevance_score = 1) := by
  have heq := normalize_citations_eq docs hne
  have hclamp : ∀ m d, 0 ≤ (normalizeOne m d).relevance_score ∧
      (normalizeOne m d).relevance_score ≤ 1 := by
    intro m d
    have h0 : (0 : ℚ) ≤ min (max (rawScore d / m) 0) 1 :=
      le_min (le_max_right _ _) zero_le_one
    have h1 : min (max (rawScore d / m) 0) 1 ≤ 1 := min_le_right _ _
    constructor
    · have := rnd3_mono h0
      rwa [@rnd3_eq_self 0 0 (by norm_num)] at this
    · have := rnd3_mono h1
      rwa [@rnd3_eq_self 1 1000 (by norm_num)] at this
  refine ⟨by rw [heq, List.length_map], ?_, ?_⟩
  · intro c hc
    rw [heq] at hc
    rcases List.mem_map.mp hc with ⟨d, _, rfl⟩
    exact hclamp _ d
  · intro hpos
    cases docs with
    | nil => exact absurd rfl hne
    | cons d0 ds =>
      have hmaxpos : 0 < maxRawScore (d0 :: ds) := by
        have : rawScore d0 ≤ maxRawScore (d0 :: ds) := le_foldl_max _ _
        exact lt_of_lt_of_le (hpos d0 (List.mem_cons_self _ _)) this
      have hdiv : effectiveMaxScore (d0 :: ds) = maxRawScore (d0 :: ds) := by
        unfold effectiveMaxScore
        rw [if_neg (not_le.mpr hmaxpos)]
      have hone : ∀ p ∈ (d0 :: ds).zip (normalize_citations (d0 :: ds)),
          rawScore p.1 = maxRawScore (d0 :: ds) → p.2.relevance_score = 1 := by
        intro p hp hmax
        have hsnd : p.2 = normalizeOne (effectiveMaxScore (d0 :: ds)) p.1 := by
          have := zip_map_snd (normalizeOne (effectiveMaxScore (d0 :: ds))) (d0 :: ds)
          rw [heq] at hp
          exact this p hp
        rw [hsnd]
        unfold normalizeOne
        simp only
        rw [hdiv, hmax, div_self (ne_of_gt hmaxpos)]
        rw [max_eq_left zero_le_one, min_self]
        exact @rnd3_eq_self 1 1000 (by norm_num)
      refine ⟨hone, ?_⟩
      have hattained : ∃ d ∈ (d0 :: ds), rawScore d = maxRawScore (d0 :: ds) := by
        rcases foldl_max_cases (ds.map rawScore) (rawScore d0) with hcase | hcase
        · exact ⟨d0, List.mem_cons_self _ _, hcase.symm⟩
        · rcases List.mem_map.mp hcase with ⟨d, hd, hval⟩
          exact ⟨d, List.mem_cons_of_mem _ hd, hval⟩
      rcases hattained with ⟨d, hd, hdmax⟩
      refine ⟨(d, normalizeOne (effectiveMaxScore (d0 :: ds)) d), ?_, hdmax, ?_⟩
      · rw [heq]
        exact mem_zip_map _ _ _ hd
      · exact hone _ (by rw [heq]; exact mem_zip_map _ _ _ hd) hdmax

/-- Witness for C3 at a concrete two-document list with raw scores 2 and 4:
the hypotheses hold and the maximum-scored document normalizes to exactly 1. -/
theorem normalize_citations_spec_witness :
    ([exDocA, exDocB] : List Doc) ≠ [] ∧
    (∀ d ∈ [exDocA, exDocB], 0 < rawScore d) ∧
    (∀ c ∈ normalize_citations [exDocA, exDocB],
      0 ≤ c.relevance_score ∧ c.relevance_score ≤ 1) ∧
    ∃ p ∈ [exDocA, exDocB].zip (normalize_citations [exDocA, exDocB]),
      rawScore p.1 = maxRawScore [exDocA, exDocB] ∧ p.2.relevance_score = 1 := by
  have hne : ([exDocA, exDocB] : List Doc) ≠ [] := by simp
  have hpos : ∀ d ∈ [exDocA, exDocB], 0 < rawScore d := by
    intro d hd
    rcases List.mem_cons.mp hd with rfl | hd2
    · norm_num [rawScore, exDocA]
    · rcases List.mem_cons.mp hd2 with rfl | hd3
      · norm_num [rawScore, exDocB]
      · cases hd3
  exact ⟨hne, hpos, (normalize_citations_spec _ hne).2.1,
    ((normalize_citations_spec _ hne).2.2 hpos).2⟩

/-- C5: with both citation lists non-empty, scores in [0,1], and the same
telemetry-presence flag, the blended confidence is monotone in the mean
citation relevance. -/
theorem combine_confidence_monotone (c1 c2 : List Citation) (dp1 dp2 : List String)
    (h1 : c1 ≠ []) (h2 : c2 ≠ [])
    (hb1 : ∀ c ∈ c1, 0 ≤ c.relevance_score ∧ c.relevance_score ≤ 1)
    (hb2 : ∀ c ∈ c2, 0 ≤ c.relevance_score ∧ c.relevance_score ≤ 1)
    (hdp : dp1 = [] ↔ dp2 = []) (hm : meanRel c1 ≤ meanRel c2) :
    combine_confidence c1 dp1 ≤ combine_confidence c2 dp2 := by
  have e1 : c1.isEmpty = false := by cases c1 with
    | nil => exact absurd rfl h1
    | cons a t => rfl
  have e2 : c2.isEmpty = false := by cases c2 with
    | nil => exact absurd rfl h2
    | cons a t => rfl
  unfold combine_confidence
  rw [e1, e2]
  simp only [Bool.false_eq_true, if_false]
  have hbase : 0.55 + meanRel c1 * 0.35 ≤ 0.55 + meanRel c2 * 0.35 := by linarith
  cases hd1 : dp1 with
  | nil =>
    have hd2 : dp2 = [] := hdp.mp hd1
    rw [hd2]
    simp only [List.isEmpty_nil, if_true]
    exact min_le_min le_rfl (rnd3_mono hbase)
  | cons a t =>
    have hd2 : dp2 ≠ [] := by
      intro hcon
      rw [hdp.mpr hcon] at hd1
      cases hd1
    have e3 : (a :: t : List String).isEmpty = false := rfl
    have e4 : dp2.isEmpty = false := by cases dp2 with
      | nil => exact absurd rfl hd2
      | cons b u => rfl
    rw [e3, e4]
    simp only [Bool.false_eq_true, if_false]
    exact min_le_min le_rfl (rnd3_mono (by linarith))

/-- Witness for C5 at two singleton citation lists with relevances 0.2 and
0.8 and no telemetry. -/
theorem combine_confidence_monotone_witness :
    meanRel [exCitLow] ≤ meanRel [exCitHigh] ∧
    combine_confidence [exCitLow] [] ≤ combine_confidence [exCitHigh] [] := by
  have hm : meanRel [exCitLow] ≤ meanRel [exCitHigh] := by
    norm_num [meanRel, exCitLow, exCitHigh]
  refine ⟨hm, combine_confidence_monotone _ _ _ _ (by simp) (by simp) ?_ ?_ Iff.rfl hm⟩
  · intro c hc
    rcases List.mem_cons.mp hc with rfl | hc2
    · norm_num [exCitLow]
    · cases hc2
  · intro c hc
    rcases List.mem_cons.mp hc with rfl | hc2
    · norm_num [exCitHigh]
    · cases hc2

/-- Bounding `min 0.98 (rnd3 b)` for a boosted base in [0.4, 0.95]. -/
theorem conf_bound_aux (b : ℚ) (h0 : 0.4 ≤ b) (h1 : b ≤ 0.95) :
    0.4 ≤ min 0.98 (rnd3 b) ∧ min 0.98 (rnd3 b) ≤ 0.95 ∧
    min 0.98 (rnd3 b) < 0.98 := by
  have r0 : (0.4 : ℚ) ≤ rnd3 b := by
    have := rnd3_mono h0
    rwa [@rnd3_eq_self 0.4 400 (by norm_num)] at this
  have r1 : rnd3 b ≤ 0.95 := by
    have := rnd3_mono h1
    rwa [@rnd3_eq_self 0.95 950 (by norm_num)] at this
  refine ⟨le_min (by norm_num) r0, le_trans (min_le_right _ _) r1,
    lt_of_le_of_lt (le_trans (min_le_right _ _) r1) (by norm_num)⟩

/-- The base confidence lies in [0.4, 0.9] when all relevances lie in [0,1]. -/
theorem base_confidence_bounds (cs : List Citation)
    (hb : ∀ c ∈ cs, 0 ≤ c.relevance_score ∧ c.relevance_score ≤ 1) :
    0.4 ≤ (if cs.isEmpty then (0.4 : ℚ) else 0.55 + meanRel cs * 0.35) ∧
    (if cs.isEmpty then (0.4 : ℚ) else 0.55 + meanRel cs * 0.35) ≤ 0.9 := by
  cases cs with
  | nil => norm_num
  | cons c0 ct =>
    have hne : (c0 :: ct : List Citation).isEmpty = false := rfl
    rw [hne]
    simp only [Bool.false_eq_true, if_false]
    have hlenpos : (0 : ℚ) < ((c0 :: ct : List Citation).length : ℚ) := by
      have : 0 < (c0 :: ct : List Citation).length := List.length_pos.mpr (by simp)
      exact_mod_cast this
    have hsum0 : (0 : ℚ) ≤ ((c0 :: ct).map Citation.relevance_score).sum := by
      apply List.sum_nonneg
      intro x hx
      rcases List.mem_map.mp hx with ⟨c, hc, rfl⟩
      exact (hb c hc).1
    have hsum1 : ((c0 :: ct).map Citation.relevance_score).sum ≤
        (((c0 :: ct) : List Citation).length : ℚ) := by
      have := List.sum_le_card_nsmul ((c0 :: ct).map Citation.relevance_score) 1
        (by intro x hx; rcases List.mem_map.mp hx with ⟨c, hc, rfl⟩; exact (hb c hc).2)
      rw [List.length_map] at this
      simpa [nsmul_eq_mul] using this
    have hmean0 : 0 ≤ meanRel (c0 :: ct) := by
      unfold meanRel
      exact div_nonneg hsum0 (le_of_lt hlenpos)
    have hmean1 : meanRel (c0 :: ct) ≤ 1 := by
      unfold meanRel
      exact (div_le_one hlenpos).mpr hsum1
    constructor <;> nlinarith

/-- C9: with all citation relevances in [0,1], the blended confidence lies in
[0.4, 0.95]; in particular the 0.98 cap is never attained. -/
theorem combine_confidence_range (cs : List Citation) (dp : List String)
    (hb : ∀ c ∈ cs, 0 ≤ c.relevance_score ∧ c.relevance_score ≤ 1) :
    0.4 ≤ combine_confidence cs dp ∧ combine_confidence cs dp ≤ 0.95 ∧
    combine_confidence cs dp < 0.98 := by
  rcases base_confidence_bounds cs hb with ⟨hb0, hb1⟩
  have hboost :
      0.4 ≤ (if dp.isEmpty then
          (if cs.isEmpty then (0.4 : ℚ) else 0.55 + meanRel cs * 0.35)
        else (if cs.isEmpty then (0.4 : ℚ) else 0.55 + meanRel cs * 0.35) + 0.05) ∧
      (if dp.isEmpty then
          (if cs.isEmpty then (0.4 : ℚ) else 0.55 + meanRel cs * 0.35)
        else (if cs.isEmpty then (0.4 : ℚ) else 0.55 + meanRel cs * 0.35) + 0.05) ≤
        0.95 := by
    cases dp with
    | nil =>
      have hcond : (([] : List String).isEmpty = true) := rfl
      rw [if_pos hcond]
      exact ⟨hb0, by linarith⟩
    | cons a t =>
      have hcond : ¬((a :: t : List String).isEmpty = true) := by simp
      rw [if_neg hcond]
      exact ⟨by linarith, by linarith⟩
  simp only [combine_confidence]
  exact conf_bound_aux _ hboost.1 hboost.2

/-- Witness for C9 at a singleton citation list with relevance 0.8 and one
telemetry reading. -/
theorem combine_confidence_range_witness :
    (∀ c ∈ [exCitHigh], 0 ≤ c.relevance_score ∧ c.relevance_score ≤ 1) ∧
    0.4 ≤ combine_confidence [exCitHigh] ["reading"] ∧
    combine_confidence [exCitHigh] ["reading"] ≤ 0.95 := by
  have hbnd : ∀ c ∈ [exCitHigh], 0 ≤ c.relevance_score ∧ c.relevance_score ≤ 1 := by
    intro c hc
    rcases List.mem_cons.mp hc with rfl | hc2
    · norm_num [exCitHigh]
    · cases hc2
  exact ⟨hbnd, (combine_confidence_range _ _ hbnd).1,
    (combine_confidence_range _ _ hbnd).2.1⟩

/-! Turbine-model detection. -/

/-- First-match characterization of `List.find?`. -/
theorem find?_first_match {α : Type} (p : α → Bool) (l : List α) :
    (l.find? p = none ∧ ∀ x ∈ l, p x = false) ∨
    (∃ l₁ a l₂, l = l₁ ++ a :: l₂ ∧ p a = true ∧ (∀ x ∈ l₁, p x = false) ∧
      l.find? p = some a) := by
  induction l with
  | nil => exact Or.inl ⟨rfl, by intro x hx; cases hx⟩
  | cons a t ih =>
    cases hpa : p a with
    | true =>
      refine Or.inr ⟨[], a, t, rfl, hpa, ?_, ?_⟩
      · intro x hx
        cases hx
      · simp [List.find?, hpa]
    | false =>
      rcases ih with ⟨hnone, hall⟩ | ⟨l₁, b, l₂, hsplit, hpb, hfailed, hfind⟩
      · refine Or.inl ⟨?_, ?_⟩
        · simp [List.find?, hpa, hnone]
        · intro x hx
          rcases List.mem_cons.mp hx with rfl | hmem
          · exact hpa
          · exact hall x hmem
      · refine Or.inr ⟨a :: l₁, b, l₂, ?_, hpb, ?_, ?_⟩
        · rw [hsplit, List.cons_append]
        · intro x hx
          rcases List.mem_cons.mp hx with rfl | hmem
          · exact hpa
          · exact hfailed x hmem
        · simp [List.find?, hpa, hfind]

/-- C6: the detector returns none when no alias occurs in the lowercased
query; when some alias occurs, it returns the canonical model of the first
matching alias in declaration order; and in particular any query containing
the alias smt60 or the alias taurus-60 (case-insensitively) yields SMT60. -/
theorem detect_turbine_model_spec (q : String) :
    ((∀ pr ∈ TURBINE_ALIASES, aliasMatches q pr.1 = false) →
      detect_turbine_model q = none) ∧
    ((∃ pr ∈ TURBINE_ALIASES, aliasMatches q pr.1 = true) →
      ∃ l₁ pr l₂, TURBINE_ALIASES = l₁ ++ pr :: l₂ ∧ aliasMatches q pr.1 = true ∧
        (∀ x ∈ l₁, aliasMatches q x.1 = false) ∧
        detect_turbine_model q = some pr.2) ∧
    (aliasMatches q "smt60" = true → detect_turbine_model q = some "SMT60") ∧
    (aliasMatches q "taurus-60" = true → detect_turbine_model q = some "SMT60") := by
  refine ⟨?_, ?_, ?_, ?_⟩
  · intro h
    unfold detect_turbine_model
    rw [List.find?_eq_none.mpr (by intro x hx; rw [h x hx]; simp)]
    rfl
  · intro hexists
    rcases find?_first_match (fun pr => aliasMatches q pr.1) TURBINE_ALIASES with
      ⟨_, hall⟩ | ⟨l₁, a, l₂, hsplit, hpa, hfailed, hfind⟩
    · rcases hexists with ⟨pr, hmem, hmatch⟩
      rw [hall pr hmem] at hmatch
      cases hmatch
    · refine ⟨l₁, a, l₂, hsplit, hpa, hfailed, ?_⟩
      unfold detect_turbine_model
      rw [hfind]
      rfl
  · intro h
    simp [detect_turbine_model, TURBINE_ALIASES, List.find?, h]
  · intro h
    by_cases h1 : aliasMatches q "smt60" = true
    · simp [detect_turbine_model, TURBINE_ALIASES, List.find?, h1]
    · have h1f : aliasMatches q "smt60" = false := by
        cases hv : aliasMatches q "smt60"
        · rfl
        · exact absurd hv h1
      by_cases h2 : aliasMatches q "taurus60" = true
      · simp [detect_turbine_model, TURBINE_ALIASES, List.find?, h1f, h2]
      · have h2f : aliasMatches q "taurus60" = false := by
          cases hv : aliasMatches q "taurus60"
          · rfl
          · exact absurd hv h2
        simp [detect_turbine_model, TURBINE_ALIASES, List.find?, h1f, h2f, h]

/-- Witness for C6: a query containing TAURUS-60 in mixed case detects SMT60,
and a query with no alias detects nothing. -/
theorem detect_turbine_model_spec_witness :
    aliasMatches "Need help with TAURUS-60 startup" "taurus-60" = true ∧
    detect_turbine_model "Need help with TAURUS-60 startup" = some "SMT60" ∧
    (∀ pr ∈ TURBINE_ALIASES, aliasMatches "hello world" pr.1 = false) ∧
    detect_turbine_model "hello world" = none := by
  have h1 : aliasMatches "Need help with TAURUS-60 startup" "taurus-60" = true := by
    decide
  have h2 : ∀ pr ∈ TURBINE_ALIASES, aliasMatches "hello world" pr.1 = false := by
    decide
  exact ⟨h1, (detect_turbine_model_spec _).2.2.2 h1, h2,
    (detect_turbine_model_spec _).1 h2⟩

/-! Conversation history (claim C7). -/

/-- C7 counterexample: with six prior turns the history handed to the managed
LLM has six entries — the full message list — and differs from the last-five
slice the claim describes. -/
theorem conversation_history_counterexample :
    (bedrock_conversation_history exState6).length = 6 ∧
    bedrock_conversation_history exState6 ≠
      spec_last_five_history (exState6.messages.getD []) ∧
    (spec_last_five_history (exState6.messages.getD [])).length = 5 := by
  decide

/-- C7 amended: the history included in the managed-LLM prompt consists of all
prior turns from messages, in order, each mapped to a role/text entry whose
role is always user or assistant; any non-empty role whose lowercase form is
outside that set is coerced to assistant. -/
theorem conversation_history_all_turns (state : AgentState) :
    bedrock_conversation_history state =
      (state.messages.getD []).map historyEntryOfMessage ∧
    (∀ e ∈ bedrock_conversation_history state,
      e.role = "user" ∨ e.role = "assistant") ∧
    (∀ r : String, r ≠ "" → lowerStr r ≠ "user" → lowerStr r ≠ "assistant" →
      normalize_role r = "assistant") := by
  have hroles : ∀ r : String, normalize_role r = "user" ∨ normalize_role r = "assistant" := by
    intro r
    simp only [normalize_role]
    set L := lowerStr (if r = "" then "user" else r) with hL
    split
    · next hcond => exact hcond
    · next => exact Or.inr rfl
  refine ⟨rfl, ?_, ?_⟩
  · intro e he
    rcases List.mem_map.mp he with ⟨m, _, rfl⟩
    exact hroles (m.role.getD "user")
  · intro r hne hu ha
    simp only [normalize_role]
    rw [if_neg hne, if_neg (not_or.mpr ⟨hu, ha⟩)]

/-- Witness for C7 amended at the six-turn conversation: the full list is
mapped, and the out-of-range role system is coerced to assistant. -/
theorem conversation_history_all_turns_witness :
    bedrock_conversation_history exState6 =
      (exState6.messages.getD []).map historyEntryOfMessage ∧
    ("system" : String) ≠ "" ∧ lowerStr "system" ≠ "user" ∧
    lowerStr "system" ≠ "assistant" ∧ normalize_role "system" = "assistant" := by
  refine ⟨(conversation_history_all_turns exState6).1, by decide, by decide,
    by decide, ?_⟩
  exact (conversation_history_all_turns exState6).2.2 "system" (by decide)
    (by decide) (by decide)

/-! Reasoning-engine fallback (claim C2). -/

/-- C2 counterexample: under the shipped default configuration the primary is
the Bedrock nova_pro entry; when its invocation returns the empty string the
engine performs no fallback invocation and records the primary key in the
metadata, refuting the claim that every empty primary response triggers
exactly one fallback invocation recorded in the metadata. -/
theorem reasoning_fallback_counterexample :
    (reasoning_engine_core DEFAULT_MODEL_CONFIG none none (.ok "")
      (.ok "fallback answer") exStateR).primaryKey = "nova_pro" ∧
    (reasoning_engine_core DEFAULT_MODEL_CONFIG none none (.ok "")
      (.ok "fallback answer") exStateR).primaryIsGrok = false ∧
    (reasoning_engine_core DEFAULT_MODEL_CONFIG none none (.ok "")
      (.ok "fallback answer") exStateR).primaryResponse = some "" ∧
    (reasoning_engine_core DEFAULT_MODEL_CONFIG none none (.ok "")
      (.ok "fallback answer") exStateR).fallbackRuns = 0 ∧
    (reasoning_engine_core DEFAULT_MODEL_CONFIG none none (.ok "")
      (.ok "fallback answer") exStateR).usedModelKey = "nova_pro" := by
  decide

/-- C2 amended: when the primary fails by the test the code actually applies —
a Grok primary producing no usable text, or a Bedrock primary yielding None
(exception, missing entry or missing model id; an empty string does not
count) — then the engine hands the resolved fallback entry to the Bedrock
runner exactly once and records that key in the metadata, provided
`resolve_fallback_model_key` yields a key (configured fallback distinct from
the primary, else nova_pro, else the configured default); when no key
resolves, no fallback runs and the primary key is recorded. -/
theorem reasoning_fallback_amended (cfg : ModelConfig) (ov gr : Option String)
    (pI fI : Except String String) (st : AgentState) (t : ReasoningTrace)
    (ht : t = reasoning_engine_core cfg ov gr pI fI st)
    (hfail : if t.primaryIsGrok then truthyStr gr = false
             else t.primaryResponse = none) :
    (∃ fk, resolve_fallback_model_key cfg t.primaryKey = some fk ∧
      t.fallbackRuns = 1 ∧ t.usedModelKey = fk) ∨
    (resolve_fallback_model_key cfg t.primaryKey = none ∧
      t.fallbackRuns = 0 ∧ t.usedModelKey = t.primaryKey) := by
  subst ht
  cases hE : get_model_entry cfg (some (resolve_model_key cfg ov)) with
  | none =>
    have hkey : (reasoning_engine_core cfg ov gr pI fI st).primaryKey = "nova_pro" := by
      simp [reasoning_engine_core, hE]
    cases hE2 : get_model_entry cfg (some "nova_pro") with
    | none =>
      cases hF : resolve_fallback_model_key cfg "nova_pro" with
      | some fk =>
        refine Or.inl ⟨fk, by rw [hkey]; exact hF, ?_, ?_⟩
        · simp [reasoning_engine_core, hE, hE2, run_bedrock_model, hF]
        · simp [reasoning_engine_core, hE, hE2, run_bedrock_model, hF]
      | none =>
        refine Or.inr ⟨by rw [hkey]; exact hF, ?_, ?_⟩
        · simp [reasoning_engine_core, hE, hE2, run_bedrock_model, hF]
        · simp [reasoning_engine_core, hE, hE2, run_bedrock_model, hF, hkey]
    | some e2 =>
      by_cases hGp : e2.type = some "grok"
      · have hG : (e2.type == some "grok") = true := by simp [hGp]
        have hTr : truthyStr gr = false := by
          have hgrok : (reasoning_engine_core cfg ov gr pI fI st).primaryIsGrok = true := by
            simp [reasoning_engine_core, hE, hE2, hG]
          rw [hgrok] at hfail
          simpa using hfail
        cases hF : resolve_fallback_model_key cfg "nova_pro" with
        | some fk =>
          refine Or.inl ⟨fk, by rw [hkey]; exact hF, ?_, ?_⟩
          · simp [reasoning_engine_core, hE, hE2, hG, hTr, hF]
          · simp [reasoning_engine_core, hE, hE2, hG, hTr, hF]
        | none =>
          refine Or.inr ⟨by rw [hkey]; exact hF, ?_, ?_⟩
          · simp [reasoning_engine_core, hE, hE2, hG, hTr, hF]
          · simp [reasoning_engine_core, hE, hE2, hG, hTr, hF, hkey]
      · have hG : (e2.type == some "grok") = false := by simp [hGp]
        have hPrim : (reasoning_engine_core cfg ov gr pI fI st).primaryResponse = none := by
          have hgrok : (reasoning_engine_core cfg ov gr pI fI st).primaryIsGrok = false := by
            simp [reasoning_engine_core, hE, hE2, hG]
          rw [hgrok] at hfail
          simpa using hfail
        cases hR : (run_bedrock_model (some e2) pI
            (ensure_errors st ++ ["Model configuration missing entry for key " ++
              resolve_model_key cfg ov ++ ". Falling back to Nova Pro."])).1 with
        | some tx =>
          exfalso
          have hPr2 : (reasoning_engine_core cfg ov gr pI fI st).primaryResponse = some tx := by
            simp [reasoning_engine_core, hE, hE2, hG, hR]
          rw [hPr2] at hPrim
          cases hPrim
        | none =>
          cases hF : resolve_fallback_model_key cfg "nova_pro" with
          | some fk =>
            refine Or.inl ⟨fk, by rw [hkey]; exact hF, ?_, ?_⟩
            · simp [reasoning_engine_core, hE, hE2, hG, hR, hF]
            · simp [reasoning_engine_core, hE, hE2, hG, hR, hF]
          | none =>
            refine Or.inr ⟨by rw [hkey]; exact hF, ?_, ?_⟩
            · simp [reasoning_engine_core, hE, hE2, hG, hR, hF]
            · simp [reasoning_engine_core, hE, hE2, hG, hR, hF, hkey]
  | some e =>
    have hkey : (reasoning_engine_core cfg ov gr pI fI st).primaryKey =
        resolve_model_key cfg ov := by
      simp [reasoning_engine_core, hE]
    by_cases hGp : e.type = some "grok"
    · have hG : (e.type == some "grok") = true := by simp [hGp]
      have hTr : truthyStr gr = false := by
        have hgrok : (reasoning_engine_core cfg ov gr pI fI st).primaryIsGrok = true := by
          simp [reasoning_engine_core, hE, hG]
        rw [hgrok] at hfail
        simpa using hfail
      cases hF : resolve_fallback_model_key cfg (resolve_model_key cfg ov) with
      | some fk =>
        refine Or.inl ⟨fk, by rw [hkey]; exact hF, ?_, ?_⟩
        · simp [reasoning_engine_core, hE, hG, hTr, hF]
        · simp [reasoning_engine_core, hE, hG, hTr, hF]
      | none =>
        refine Or.inr ⟨by rw [hkey]; exact hF, ?_, ?_⟩
        · simp [reasoning_engine_core, hE, hG, hTr, hF]
        · simp [reasoning_engine_core, hE, hG, hTr, hF, hkey]
    · have hG : (e.type == some "grok") = false := by simp [hGp]
      have hPrim : (reasoning_engine_core cfg ov gr pI fI st).primaryResponse = none := by
        have hgrok : (reasoning_engine_core cfg ov gr pI fI st).primaryIsGrok = false := by
          simp [reasoning_engine_core, hE, hG]
        rw [hgrok] at hfail
        simpa using hfail
      cases hR : (run_bedrock_model (some e) pI (ensure_errors st)).1 with
      | some tx =>
        exfalso
        have hPr2 : (reasoning_engine_core cfg ov gr pI fI st).primaryResponse = some tx := by
          simp [reasoning_engine_core, hE, hG, hR]
        rw [hPr2] at hPrim
        cases hPrim
      | none =>
        cases hF : resolve_fallback_model_key cfg (resolve_model_key cfg ov) with
        | some fk =>
          refine Or.inl ⟨fk, by rw [hkey]; exact hF, ?_, ?_⟩
          · simp [reasoning_engine_core, hE, hG, hR, hF]
          · simp [reasoning_engine_core, hE, hG, hR, hF]
        | none =>
          refine Or.inr ⟨by rw [hkey]; exact hF, ?_, ?_⟩
          · simp [reasoning_engine_core, hE, hG, hR, hF]
          · simp [reasoning_engine_core, hE, hG, hR, hF, hkey]

/-- Witness for C2 amended: default configuration with the Grok primary
selected and no Grok response; the nova_pro fallback is run exactly once and
recorded. -/
theorem reasoning_fallback_amended_witness :
    (if (reasoning_engine_core DEFAULT_MODEL_CONFIG (some "grok") none
        (.ok "unused") (.ok "answer") exStateR).primaryIsGrok
     then truthyStr (none : Option String) = false
     else (reasoning_engine_core DEFAULT_MODEL_CONFIG (some "grok") none
        (.ok "unused") (.ok "answer") exStateR).primaryResponse = none) ∧
    ((∃ fk, resolve_fallback_model_key DEFAULT_MODEL_CONFIG
        (reasoning_engine_core DEFAULT_MODEL_CONFIG (some "grok") none
          (.ok "unused") (.ok "answer") exStateR).primaryKey = some fk ∧
      (reasoning_engine_core DEFAULT_MODEL_CONFIG (some "grok") none
        (.ok "unused") (.ok "answer") exStateR).fallbackRuns = 1 ∧
      (reasoning_engine_core DEFAULT_MODEL_CONFIG (some "grok") none
        (.ok "unused") (.ok "answer") exStateR).usedModelKey = fk) ∨
    (resolve_fallback_model_key DEFAULT_MODEL_CONFIG
        (reasoning_engine_core DEFAULT_MODEL_CONFIG (some "grok") none
          (.ok "unused") (.ok "answer") exStateR).primaryKey = none ∧
      (reasoning_engine_core DEFAULT_MODEL_CONFIG (some "grok") none
        (.ok "unused") (.ok "answer") exStateR).fallbackRuns = 0 ∧
      (reasoning_engine_core DEFAULT_MODEL_CONFIG (some "grok") none
        (.ok "unused") (.ok "answer") exStateR).usedModelKey =
        (reasoning_engine_core DEFAULT_MODEL_CONFIG (some "grok") none
          (.ok "unused") (.ok "answer") exStateR).primaryKey)) := by
  have hfail : (if (reasoning_engine_core DEFAULT_MODEL_CONFIG (some "grok") none
      (.ok "unused") (.ok "answer") exStateR).primaryIsGrok
    then truthyStr (none : Option String) = false
    else (reasoning_engine_core DEFAULT_MODEL_CONFIG (some "grok") none
      (.ok "unused") (.ok "answer") exStateR).primaryResponse = none) := by
    decide
  exact ⟨hfail, reasoning_fallback_amended DEFAULT_MODEL_CONFIG (some "grok")
    none (.ok "unused") (.ok "answer") exStateR _ rfl hfail⟩

/-! Response validation (claim C1). -/

/-- C1: whenever the guardrail evaluation completes (status applied) and the
first outputs entry carries a verdict other than COMPLIANT, the validator
replaces the draft with the fixed safe-refusal message (followed only by the
fixed low-confidence warning when the threshold gate also fires) and appends
the compliance code to errors — for every state, hence for every confidence
value. -/
theorem guardrail_noncompliance_replaces_response (st : AgentState)
    (minConfidence : ℚ) (entry : GuardrailOutputEntry)
    (rest : List GuardrailOutputEntry)
    (hc : entry.complianceStatus ≠ some "COMPLIANT") :
    (response_validator true (.ok (entry :: rest)) minConfidence st).llm_response =
      some (safeRefusalMessage ++
        (if combine_confidence (st.citations.getD []) (st.data_points.getD []) <
            minConfidence then lowConfidenceSuffix else "")) ∧
    (response_validator true (.ok (entry :: rest)) minConfidence st).errors =
      some (ensure_errors st ++
        ["Guardrail non-compliance: " ++ pyShowOpt entry.complianceStatus] ++
        (if combine_confidence (st.citations.getD []) (st.data_points.getD []) <
            minConfidence then
          [confidenceThresholdMessage
            (combine_confidence (st.citations.getD []) (st.data_points.getD []))
            minConfidence]
         else [])) := by
  by_cases hconf : combine_confidence (st.citations.getD []) (st.data_points.getD []) <
      minConfidence
  · constructor <;>
      simp [response_validator, apply_bedrock_guardrail, hc, hconf]
  · constructor <;>
      simp [response_validator, apply_bedrock_guardrail, hc, hconf]

/-- Witness for C1 at a concrete draft state with one citation, a BLOCKED
verdict and threshold 0.75. -/
theorem guardrail_noncompliance_replaces_response_witness :
    exBlockedEntry.complianceStatus ≠ some "COMPLIANT" ∧
    (response_validator true (.ok [exBlockedEntry]) 0.75 exStateV).llm_response =
      some (safeRefusalMessage ++
        (if combine_confidence (exStateV.citations.getD [])
            (exStateV.data_points.getD []) < 0.75 then lowConfidenceSuffix
         else "")) ∧
    (response_validator true (.ok [exBlockedEntry]) 0.75 exStateV).errors =
      some (ensure_errors exStateV ++
        ["Guardrail non-compliance: " ++ pyShowOpt exBlockedEntry.complianceStatus] ++
        (if combine_confidence (exStateV.citations.getD [])
            (exStateV.data_points.getD []) < 0.75 then
          [confidenceThresholdMessage
            (combine_confidence (exStateV.citations.getD [])
              (exStateV.data_points.getD [])) 0.75]
         else [])) := by
  have hc : exBlockedEntry.complianceStatus ≠ some "COMPLIANT" := by decide
  exact ⟨hc,
    (guardrail_noncompliance_replaces_response exStateV 0.75 exBlockedEntry [] hc).1,
    (guardrail_noncompliance_replaces_response exStateV 0.75 exBlockedEntry [] hc).2⟩

/-! Knowledge-retriever failure semantics (claim C4). -/

/-- C4 counterexample: when the search index is unreachable the exception is
swallowed inside search_documents, which returns an empty hit list, so the
stage reports the no-documentation sentinel with citations empty and NO
retrieval-failure entry in errors — refuting the claim that errors then
contains a retrieval failure entry. -/
theorem search_unreachable_counterexample :
    (knowledge_retriever true none
      (.error "ConnectionError: search index unreachable")
      (fun _ => (.ok [] : Except String (List Neighbor))) exState4).citations =
        some [] ∧
    (knowledge_retriever true none
      (.error "ConnectionError: search index unreachable")
      (fun _ => (.ok [] : Except String (List Neighbor))) exState4).hierarchical_context =
        some "No relevant documentation found in the knowledge base." ∧
    (knowledge_retriever true none
      (.error "ConnectionError: search index unreachable")
      (fun _ => (.ok [] : Except String (List Neighbor))) exState4).errors =
        some [] := by
  decide

/-- C4 amended: an exception that reaches the stage body itself (outside
search_documents, e.g. client construction) is caught, appends a
KnowledgeRetriever entry to errors and yields empty documents and citations
with the degraded context string; but an exception inside the search call
(including an unreachable index) is swallowed by search_documents, so the
stage returns empty documents and citations with the no-documentation
sentinel and errors unchanged — no retrieval-failure entry is recorded. -/
theorem knowledge_retriever_failure_semantics (st : AgentState) (exc : String)
    (searchCall : Except String (List SearchHit))
    (nf : Nat → Except String (List Neighbor)) (e : String) :
    ((knowledge_retriever true (some exc) searchCall nf st).retrieved_documents =
        some [] ∧
      (knowledge_retriever true (some exc) searchCall nf st).citations = some [] ∧
      (knowledge_retriever true (some exc) searchCall nf st).hierarchical_context =
        some "Knowledge retrieval failed." ∧
      (knowledge_retriever true (some exc) searchCall nf st).errors =
        some (ensure_errors st ++ ["KnowledgeRetriever: " ++ exc])) ∧
    ((knowledge_retriever true none (.error e) nf st).retrieved_documents =
        some [] ∧
      (knowledge_retriever true none (.error e) nf st).citations = some [] ∧
      (knowledge_retriever true none (.error e) nf st).hierarchical_context =
        some "No relevant documentation found in the knowledge base." ∧
      (knowledge_retriever true none (.error e) nf st).errors =
        some (ensure_errors st)) := by
  constructor
  · refine ⟨?_, ?_, ?_, ?_⟩ <;> simp [knowledge_retriever]
  · refine ⟨?_, ?_, ?_, ?_⟩ <;>
      simp [knowledge_retriever, search_documents, build_hierarchical_context,
        normalize_citations]

/-! Lambda handler input aliasing (claim C10). -/

/-- C10: a payload without a query key but with a non-empty inputText is not
rejected — the pipeline runs with the inputText value as the query; a payload
with neither key, or with an empty query value, is rejected with status 400
before the pipeline is invoked. -/
theorem lambda_handler_inputText (payload : RequestPayload) (genSession t : String) :
    (payload.query = none → payload.inputText = some t → t ≠ "" →
      ∃ sid msgs, lambda_handler genSession payload = .ran 200 t sid msgs) ∧
    (payload.query = none → payload.inputText = none →
      lambda_handler genSession payload = .rejected 400 "Query is required") ∧
    (payload.query = some "" →
      lambda_handler genSession payload = .rejected 400 "Query is required") := by
  refine ⟨?_, ?_, ?_⟩
  · intro hq hi ht
    have hcond : payload.query = none ∧ payload.inputText ≠ none := by
      rw [hq, hi]
      exact ⟨rfl, by simp⟩
    unfold lambda_handler
    rw [if_pos hcond]
    simp only [hi]
    rw [if_neg ht]
    exact ⟨_, _, rfl⟩
  · intro hq hi
    have hcond : ¬(payload.query = none ∧ payload.inputText ≠ none) := by
      rw [hi]
      exact fun hcon => hcon.2 rfl
    unfold lambda_handler
    rw [if_neg hcond]
    simp only [hq]
  · intro hq
    have hcond : ¬(payload.query = none ∧ payload.inputText ≠ none) := by
      rw [hq]
      exact fun hcon => Option.some_ne_none _ hcon.1
    unfold lambda_handler
    rw [if_neg hcond]
    simp only [hq]
    rw [if_pos trivial]

/-- Witness for C10 at a payload carrying only inputText. -/
theorem lambda_handler_inputText_witness :
    exPayload.query = none ∧ exPayload.inputText = some "how to start SMT60" ∧
    ("how to start SMT60" : String) ≠ "" ∧
    ∃ sid msgs, lambda_handler "session-generated" exPayload =
      .ran 200 "how to start SMT60" sid msgs := by
  exact ⟨rfl, rfl, by decide,
    (lambda_handler_inputText exPayload "session-generated" _).1 rfl rfl (by decide)⟩

/-! Stage non-destructiveness (claim C8). -/

/-- Per-field merging keeps a set field set. -/
theorem updField_keeps {α : Type} (u b : Option α) (h : b.isSome = true) :
    (updField u b).isSome = true := by
  unfold updField
  cases u
  · exact h
  · rfl

/-- The merge never clears a field that was set. -/
theorem mergeState_keeps (st upd : AgentState) : fieldsKept st (mergeState st upd) := by
  unfold fieldsKept mergeState
  refine ⟨?_, ?_, ?_, ?_, ?_, ?_, ?_, ?_, ?_, ?_, ?_, ?_, ?_, ?_, ?_, ?_⟩ <;>
    exact fun h => updField_keeps _ _ h

/-- A stage whose returned errors key is absent, or extends the incoming list,
is non-destructive after the merge. -/
theorem stagePreserves_of_update (st upd : AgentState)
    (h : upd.errors = none ∨
      ∃ extra, upd.errors = some (ensure_errors st ++ extra)) :
    stagePreserves st upd := by
  refine ⟨?_, mergeState_keeps st upd⟩
  rcases h with hnone | ⟨extra, hsome⟩
  · refine ⟨[], ?_⟩
    unfold ensure_errors mergeState updField
    rw [hnone, List.append_nil]
  · refine ⟨extra, ?_⟩
    unfold ensure_errors mergeState updField
    rw [hsome]
    rfl

/-- Transitivity of the list-extension relation. -/
theorem prefix_trans {a b c : List String} (h1 : ∃ x, b = a ++ x)
    (h2 : ∃ y, c = b ++ y) : ∃ z, c = a ++ z := by
  obtain ⟨x, rfl⟩ := h1
  obtain ⟨y, rfl⟩ := h2
  exact ⟨x ++ y, List.append_assoc a x y⟩

/-- Appending at most one trailing entry extends the list. -/
theorem prefix_ite {c : Prop} [Decidable c] {l : List String} (m : String) :
    ∃ z, (if c then l else l ++ [m]) = l ++ z := by
  by_cases h : c
  · exact ⟨[], by rw [if_pos h, List.append_nil]⟩
  · exact ⟨[m], by rw [if_neg h]⟩

/-- The Bedrock runner only appends to the error list. -/
theorem run_bedrock_model_errors (entry : Option ModelEntry)
    (inv : Except String String) (errs : List String) :
    ∃ extra, (run_bedrock_model entry inv errs).2.1 = errs ++ extra := by
  cases entry with
  | none => exact ⟨_, rfl⟩
  | some e =>
    cases hm : e.model_id with
    | none =>
      exact ⟨["Bedrock model configuration missing model_id."],
        by simp [run_bedrock_model, hm]⟩
    | some mid =>
      by_cases hmid : mid = ""
      · exact ⟨["Bedrock model configuration missing model_id."],
          by simp [run_bedrock_model, hm, hmid]⟩
      · cases inv with
        | ok tx => exact ⟨[], by simp [run_bedrock_model, hm, hmid]⟩
        | error exc =>
          exact ⟨["Bedrock invocation failed for model " ++ mid ++ ": " ++ exc],
            by simp [run_bedrock_model, hm, hmid]⟩

/-- The reasoning engine only appends to the error list. -/
theorem reasoning_core_errors (cfg : ModelConfig) (ov gr : Option String)
    (pI fI : Except String String) (st : AgentState) :
    ∃ extra, (reasoning_engine_core cfg ov gr pI fI st).errors =
      ensure_errors st ++ extra := by
  simp only [reasoning_engine_core]
  refine prefix_trans ?_ (prefix_ite _)
  repeat' split
  all_goals first
    | exact ⟨_, rfl⟩
    | exact ⟨[], (List.append_nil _).symm⟩
    | exact ⟨_, List.append_assoc _ _ _⟩
    | exact run_bedrock_model_errors _ _ _
    | exact prefix_trans ⟨_, rfl⟩ (run_bedrock_model_errors _ _ _)
    | exact prefix_trans ⟨[], (List.append_nil _).symm⟩ (run_bedrock_model_errors _ _ _)
    | exact prefix_trans (run_bedrock_model_errors _ _ _) (run_bedrock_model_errors _ _ _)
    | exact prefix_trans (prefix_trans ⟨_, rfl⟩ (run_bedrock_model_errors _ _ _))
        (run_bedrock_model_errors _ _ _)

/-- The data fetcher only appends to the error list. -/
theorem data_fetcher_errors (enabled : Bool)
    (fo : Except String (List String)) (st : AgentState) :
    ∃ extra, (data_fetcher enabled fo st).errors =
      some (ensure_errors st ++ extra) := by
  simp only [data_fetcher]
  repeat' split
  all_goals first
    | exact ⟨_, rfl⟩
    | exact ⟨[], congrArg some (List.append_nil _).symm⟩

/-- The knowledge retriever only appends to the error list. -/
theorem knowledge_retriever_errors (configured : Bool) (outerExc : Option String)
    (searchCall : Except String (List SearchHit))
    (nf : Nat → Except String (List Neighbor)) (st : AgentState) :
    ∃ extra, (knowledge_retriever configured outerExc searchCall nf st).errors =
      some (ensure_errors st ++ extra) := by
  simp only [knowledge_retriever]
  repeat' split
  all_goals first
    | exact ⟨_, rfl⟩
    | exact ⟨[], congrArg some (List.append_nil _).symm⟩

/-- The response validator only appends to the error list. -/
theorem response_validator_errors (gc : Bool)
    (ev : Except String (List GuardrailOutputEntry)) (minC : ℚ)
    (st : AgentState) :
    ∃ extra, (response_validator gc ev minC st).errors =
      some (ensure_errors st ++ extra) := by
  simp only [response_validator]
  repeat' split
  all_goals first
    | exact ⟨_, rfl⟩
    | exact ⟨[], congrArg some (List.append_nil _).symm⟩
    | exact ⟨_, congrArg some (List.append_assoc _ _ _)⟩
    | exact ⟨_, congrArg some ((List.append_assoc _ _ _).trans (List.append_assoc _ _ _))⟩

/-- C8: every pipeline stage, merged into any input state, keeps the incoming
error entries as a prefix of the merged error list and never clears a
previously set state field. -/
theorem stages_preserve_state (st : AgentState) (now now2 : String)
    (enabled : Bool) (fetchOutcome : Except String (List String))
    (configured : Bool) (outerExc : Option String)
    (searchCall : Except String (List SearchHit))
    (neighborFetches : Nat → Except String (List Neighbor)) (cfg : ModelConfig)
    (ov gr : Option String) (pI fI : Except String String) (gConf : Bool)
    (gEval : Except String (List GuardrailOutputEntry)) (minConf : ℚ) :
    stagePreserves st (query_transformer now st) ∧
    stagePreserves st (data_fetcher enabled fetchOutcome st) ∧
    stagePreserves st
      (knowledge_retriever configured outerExc searchCall neighborFetches st) ∧
    stagePreserves st (reasoning_engine cfg ov gr pI fI now2 st) ∧
    stagePreserves st (response_validator gConf gEval minConf st) := by
  refine ⟨?_, ?_, ?_, ?_, ?_⟩
  · exact stagePreserves_of_update _ _ (Or.inl rfl)
  · exact stagePreserves_of_update _ _
      (Or.inr (data_fetcher_errors enabled fetchOutcome st))
  · exact stagePreserves_of_update _ _
      (Or.inr (knowledge_retriever_errors configured outerExc searchCall
        neighborFetches st))
  · obtain ⟨extra, he⟩ := reasoning_core_errors cfg ov gr pI fI st
    exact stagePreserves_of_update _ _ (Or.inr ⟨extra, by rw [← he]; rfl⟩)
  · exact stagePreserves_of_update _ _
      (Or.inr (response_validator_errors gConf gEval minConf st))

end SolarisAgent
